import Mathlib

/-!
Verification of the token-resolution module
`crates/fluvio-hub-protocol/src/infinyon_tok.rs`.

Shallow embedding conventions:
- The filesystem is a map from path strings to optional file contents
  (`String → Option String`); `fs::read_to_string` on path `p` is `fs p`.
- `Path::join base name` (with `name` relative) is `base ++ "/" ++ name`.
- Rust `Result<T, InfinyonCredentialError>` is `RustResult T`.
- A Rust panic (from `unwrap` / `panic!` in the source) is made explicit as
  the `panicked` constructor of `PanicOr`.
- `std::collections::HashMap<String, String>` is modelled as an association
  list `List (String × String)` holding the map's entries in the map's
  iteration order (for a Rust `HashMap` that order is arbitrary, not the
  insertion or sorted order); `keys().next()` is the head of that list and
  `get` is first-match lookup.
- The external helper invocation (`std::process::Command` plus
  `serde_json::from_slice`) is modelled by `HelperOutcome`, recording
  whether spawning failed, or the process ran (with its exit status) and
  whether its stdout parsed into a `CliAccessTokens` value.
- `toml::from_str::<Credentials>` / `toml::to_string` are third-party code;
  they are modelled concretely by `parseCredentials` / `serializeCredentials`
  on the flat four-string-field record shape used by this module.
-/

set_option autoImplicit false

namespace InfinyonTok

/-- Error type `InfinyonCredentialError` from the source: a `Read` failure
carrying a message, or `UnableToParseCredentials`. -/
inductive InfinyonCredentialError where
  | Read (msg : String)
  | UnableToParseCredentials
deriving DecidableEq, Repr

/-- Rust `Result<α, InfinyonCredentialError>`. -/
inductive RustResult (α : Type) where
  | ok (a : α)
  | err (e : InfinyonCredentialError)
deriving DecidableEq, Repr

/-- Explicit account of a possible Rust panic: either a normal value or an
abort with a panic message. -/
inductive PanicOr (α : Type) where
  | ok (a : α)
  | panicked (msg : String)
deriving DecidableEq, Repr

/-- A filesystem: maps a path to the file's contents, `none` when the read
fails (missing or unreadable file). -/
def FileSystem : Type := String → Option String

/-- `Path::join` for a relative `name`. -/
def pathJoin (base name : String) : String := base ++ "/" ++ name

/-- Constant `CURRENT_LOGIN_FILE_NAME` from the source. -/
def CURRENT_LOGIN_FILE_NAME : String := "current"

/-- Constant `DEFAULT_LOGINS_DIR` from the source. -/
def DEFAULT_LOGINS_DIR : String := "logins"

/-- Modelled from the spec: `CLI_CONFIG_PATH` comes from the external crate
`fluvio-types` (not part of this file); the spec only says it is "a fixed
relative application-config path" under the home directory. Its concrete
value is irrelevant to every claim. -/
def CLI_CONFIG_PATH : String := ".fluvio"

/-- `default_file_path` from the source: home directory joined with
`CLI_CONFIG_PATH` and `DEFAULT_LOGINS_DIR`. The home directory is a
parameter of the embedding (`dirs::home_dir().unwrap_or_default()`). -/
def default_file_path (home : String) : String :=
  pathJoin (pathJoin home CLI_CONFIG_PATH) DEFAULT_LOGINS_DIR

/-- Struct `Credentials` from the source (fields `remote`, `email`, `id`,
`token`). -/
structure Credentials where
  remote : String
  email : String
  id : String
  token : String
deriving DecidableEq, Repr

/-- One serialized TOML line `key = "value"` followed by a newline, as
`toml::to_string` produces for a string field (model of the third-party
serializer on this record shape; values needing escapes are excluded by
`validField` where round-tripping is claimed). -/
def serializeField (key value : String) : List Char :=
  key.data ++ (" = \"").data ++ value.data ++ ('"' :: '\n' :: [])

/-- Model of `toml::to_string` on a `Credentials` record: the four fields in
declaration order, each as a `key = "value"` line. -/
def serializeCredentials (c : Credentials) : String :=
  ⟨serializeField "remote" c.remote ++ serializeField "email" c.email ++
   serializeField "id" c.id ++ serializeField "token" c.token⟩

/-- Strip an expected literal sequence of characters from the front of a
character list; `none` if the input does not start with it. -/
def stripPfx : List Char → List Char → Option (List Char)
  | [], cs => some cs
  | p :: ps, c :: cs => if c = p then stripPfx ps cs else none
  | _ :: _, [] => none

/-- Consume characters up to the first `"` quote; returns the consumed value
and the remainder after the quote, or `none` if no quote occurs. -/
def takeQuoted : List Char → Option (List Char × List Char)
  | [] => none
  | c :: cs =>
    if c = '"' then some ([], cs)
    else
      match takeQuoted cs with
      | some (v, rest) => some (c :: v, rest)
      | none => none

/-- Parse one `key = "value"` line (terminated by a newline) for the given
key; returns the value and the remaining input. -/
def parseField (key : String) (cs : List Char) : Option (String × List Char) :=
  match stripPfx (key.data ++ (" = \"").data) cs with
  | none => none
  | some cs1 =>
    match takeQuoted cs1 with
    | none => none
    | some (v, rest) =>
      match rest with
      | '\n' :: rest2 => some (⟨v⟩, rest2)
      | _ => none

/-- Model of `toml::from_str::<Credentials>`: parses the four string fields
in declaration order and requires the input to be fully consumed; `none` on
any structural mismatch. -/
def parseCredentials (s : String) : Option Credentials :=
  match parseField "remote" s.data with
  | none => none
  | some (r, cs1) =>
    match parseField "email" cs1 with
    | none => none
    | some (e, cs2) =>
      match parseField "id" cs2 with
      | none => none
      | some (i, cs3) =>
        match parseField "token" cs3 with
        | none => none
        | some (t, cs4) =>
          match cs4 with
          | [] => some ⟨r, e, i, t⟩
          | _ => none

/-- The `Read` error message used by `Credentials::load` and
`Credentials::try_load`. -/
def noCredsMsg : String := "no access credentials, try 'fluvio cloud login'"

/-- `Credentials::load` from the source: read the file at `cred_path`
(`Read` error on failure), then parse it as TOML
(`UnableToParseCredentials` on failure). -/
def Credentials.load (fs : FileSystem) (cred_path : String) :
    RustResult Credentials :=
  match fs cred_path with
  | none => .err (.Read noCredsMsg)
  | some file_str =>
    match parseCredentials file_str with
    | none => .err .UnableToParseCredentials
    | some creds => .ok creds

/-- `Credentials::try_load` from the source: read the pointer file
`current` inside `base_path` (`Read` error on failure), join its raw
content (no trimming) onto `base_path`, and delegate to
`Credentials.load`. -/
def Credentials.try_load (fs : FileSystem) (base_path : String) :
    RustResult Credentials :=
  match fs (pathJoin base_path CURRENT_LOGIN_FILE_NAME) with
  | none => .err (.Read noCredsMsg)
  | some cfg_path => Credentials.load fs (pathJoin base_path cfg_path)

/-- Struct `CliAccessTokens` from the source. `org_access_tokens` is a
`HashMap<String, String>`; here it is the list of the map's entries in the
map's iteration order (arbitrary for a Rust `HashMap`), keys unique. -/
structure CliAccessTokens where
  remote : String
  user_access_token : String
  org_access_tokens : List (String × String)
deriving DecidableEq, Repr

/-- `HashMap::get`: first-match lookup in the entry list. -/
def hashmap_get : List (String × String) → String → Option String
  | [], _ => none
  | (k, v) :: rest, key => if key = k then some v else hashmap_get rest key

/-- The panic message of `CliAccessTokens::get_current_org_token` when the
organization map is empty. -/
def orgPanicMsg : String :=
  "no org access token found, please login or switch to an org with 'fluvio cloud org switch'"

/-- `CliAccessTokens::get_current_org_token` from the source:
`keys().next()` (the head of the iteration order) or panic when the map is
empty; then `get(key)`, with `String::new()` in the (dead) missing-key
branch. -/
def CliAccessTokens.get_current_org_token (c : CliAccessTokens) :
    PanicOr String :=
  match c.org_access_tokens.head? with
  | none => .panicked orgPanicMsg
  | some (key, _) =>
    match hashmap_get c.org_access_tokens key with
    | some tok => .ok tok
    | none => .ok ""

/-- Outcome of invoking the external helper `fluvio-cloud-v4
cli-access-tokens`: either `cmd.output()` returned `Err` (spawn failure),
or the process ran and exited with `exitCode` and its stdout either failed
to parse as `CliAccessTokens` JSON or parsed to `tokens`. The source never
inspects the exit code. -/
inductive HelperOutcome where
  | execError
  | ranUnparsable (exitCode : Int)
  | ranParsed (exitCode : Int) (tokens : CliAccessTokens)

/-- Panic message standing for the `unwrap()` on `serde_json::from_slice`
in `read_access_tokens`. -/
def serdeUnwrapMsg : String :=
  "called unwrap on serde_json::from_slice error"

/-- The ambient state a resolution call runs against: the value of the
`INFINYON_CONFIG_PATH` environment variable (if set), the filesystem, the
home directory, and the external helper's behaviour. -/
structure World where
  env : Option String
  fs : FileSystem
  home : String
  helper : HelperOutcome

/-- `read_access_tokens` from the source: on spawn failure return
`Read "failed to execute v4"`; on a completed run, `unwrap` the
serde_json parse of stdout — a panic when stdout is unparsable, the parsed
`CliAccessTokens` otherwise. The exit status is never examined. -/
def read_access_tokens (w : World) :
    PanicOr (RustResult CliAccessTokens) :=
  match w.helper with
  | .execError => .ok (.err (.Read "failed to execute v4"))
  | .ranUnparsable _ => .panicked serdeUnwrapMsg
  | .ranParsed _ cli_access_tokens => .ok (.ok cli_access_tokens)

/-- `read_infinyon_token_v3` from the source: legacy resolution via
`Credentials::try_load` against the default base directory, returning the
token field. -/
def read_infinyon_token_v3 (fs : FileSystem) (home : String) :
    RustResult String :=
  match Credentials.try_load fs (default_file_path home) with
  | .ok cred => .ok cred.token
  | .err e => .err e

/-- `read_infinyon_token` from the source: try `read_access_tokens`; on
success return `get_current_org_token` of the result; on error fall back
to `read_infinyon_token_v3`. Panics propagate. -/
def read_infinyon_token (w : World) : PanicOr (RustResult String) :=
  match read_access_tokens w with
  | .panicked m => .panicked m
  | .ok (.ok cli_access_tokens) =>
    match cli_access_tokens.get_current_org_token with
    | .panicked m => .panicked m
    | .ok tok => .ok (.ok tok)
  | .ok (.err _) => .ok (read_infinyon_token_v3 w.fs w.home)

/-- `read_infinyon_token_rem` from the source: if `INFINYON_CONFIG_PATH` is
set, load that profile path directly with `Credentials::load` (the `?`
operator propagates its error); otherwise resolve via
`Credentials::try_load` on the default base directory. The external helper
is never consulted. -/
def read_infinyon_token_rem (w : World) : RustResult (String × String) :=
  match w.env with
  | some profilepath =>
    match Credentials.load w.fs profilepath with
    | .ok cred => .ok (cred.token, cred.remote)
    | .err e => .err e
  | none =>
    match Credentials.try_load w.fs (default_file_path w.home) with
    | .ok cred => .ok (cred.token, cred.remote)
    | .err e => .err e

/-- A string field value that serializes to TOML without escaping: it
contains no quote, backslash or newline. Values outside this set would
need the escape machinery of the real TOML serializer, which this model
omits. -/
def validField (s : String) : Prop :=
  '"' ∉ s.data ∧ '\\' ∉ s.data ∧ '\n' ∉ s.data

instance (s : String) : Decidable (validField s) := by
  unfold validField; infer_instance

/-- A credential record all of whose fields are `validField`. -/
def validCred (c : Credentials) : Prop :=
  validField c.remote ∧ validField c.email ∧ validField c.id ∧
  validField c.token

instance (c : Credentials) : Decidable (validCred c) := by
  unfold validCred; infer_instance

/-! Concrete values used by witnesses and counterexamples. -/

/-- A concrete valid credential record. -/
def credA : Credentials := ⟨"r1", "e", "1", "t1"⟩

/-- A second, different valid credential record. -/
def credB : Credentials := ⟨"r2", "e2", "2", "t2"⟩

/-- The serialized form of `credA`. -/
def credContentA : String := serializeCredentials credA

/-- The serialized form of `credB`. -/
def credContentB : String := serializeCredentials credB

/-- The empty filesystem. -/
def fsEmpty : FileSystem := fun _ => none

/-- A base directory whose pointer file `current` names `profA.toml`
(no trailing whitespace) and which holds `credA` there. -/
def fsA : FileSystem := fun p =>
  if p = pathJoin "base" "current" then some "profA.toml"
  else if p = pathJoin "base" "profA.toml" then some credContentA
  else none

/-- Same store as `fsA` except the pointer file content carries a trailing
newline. -/
def fsNl : FileSystem := fun p =>
  if p = pathJoin "base" "current" then some "profA.toml\n"
  else if p = pathJoin "base" "profA.toml" then some credContentA
  else none

/-- A filesystem with one unparsable file at `bad`. -/
def fsGarbage : FileSystem := fun p =>
  if p = "bad" then some "garbage" else none

/-- A base directory whose pointer file names a file that does not
exist. -/
def fsDangling : FileSystem := fun p =>
  if p = pathJoin "base" "current" then some "nofile.toml" else none

/-- A filesystem holding the serialization of `credA` at path `p`. -/
def fsRT : FileSystem := fun q =>
  if q = "p" then some (serializeCredentials credA) else none

/-- The default base directory for home directory `"h"`. -/
def baseH : String := default_file_path "h"

/-- A filesystem holding a valid legacy profile (`credA`) under the default
base directory for home `"h"`. -/
def fsLegacy : FileSystem := fun p =>
  if p = pathJoin baseH "current" then some "profA.toml"
  else if p = pathJoin baseH "profA.toml" then some credContentA
  else none

/-- A filesystem holding `credB` at the override path `envprof` and a
different valid legacy profile (`credA`) under the default base
directory. -/
def fsBoth : FileSystem := fun p =>
  if p = "envprof" then some credContentB
  else if p = pathJoin baseH "current" then some "profA.toml"
  else if p = pathJoin baseH "profA.toml" then some credContentA
  else none

/-- A multi-org token set whose iteration order lists `orga` first. -/
def catAB : CliAccessTokens := ⟨"r", "u", [("orga", "ta"), ("orgb", "tb")]⟩

/-- The same mapping as `catAB` but with the opposite iteration order. -/
def catBA : CliAccessTokens := ⟨"r", "u", [("orgb", "tb"), ("orga", "ta")]⟩

/-- A multi-org token set with an empty organization map. -/
def catEmpty : CliAccessTokens := ⟨"r", "u", []⟩

/-- A world where the helper cannot be executed and a valid legacy profile
exists. -/
def wExec : World := ⟨none, fsLegacy, "h", .execError⟩

/-- A world where the helper ran, exited non-zero, and printed unparsable
output. -/
def wUnparsable : World := ⟨none, fsEmpty, "h", .ranUnparsable 1⟩

/-- A world where the helper ran, exited non-zero, yet printed parsable
output. -/
def wNonzeroParsed : World := ⟨none, fsEmpty, "h", .ranParsed 1 catAB⟩

/-- A world where the helper succeeded with an empty organization map while
a valid legacy profile exists. -/
def wEmptyOrgs : World := ⟨none, fsLegacy, "h", .ranParsed 0 catEmpty⟩

/-- A world where the override variable points at `envprof` (holding
`credB`) and the default base directory holds a different valid profile
(`credA`). -/
def wEnvBoth : World := ⟨some "envprof", fsBoth, "h", .ranParsed 0 catAB⟩

/-- A world where the override variable points at a missing file while the
default base directory holds a valid profile. -/
def wEnvMissing : World := ⟨some "envprof", fsLegacy, "h", .execError⟩

theorem stripPfx_append (p cs : List Char) : stripPfx p (p ++ cs) = some cs := by
  induction p with
  | nil => rfl
  | cons a as ih => simp [stripPfx, ih]

theorem takeQuoted_append (v rest : List Char) (h : '"' ∉ v) :
    takeQuoted (v ++ '"' :: rest) = some (v, rest) := by
  induction v with
  | nil => simp [takeQuoted]
  | cons a as ih =>
    simp only [List.mem_cons, not_or] at h
    obtain ⟨h1, h2⟩ := h
    have ha : ¬ a = '"' := fun e => h1 e.symm
    simp [takeQuoted, ha, ih h2]

theorem parseField_serializeField (key value : String) (rest : List Char)
    (h : '"' ∉ value.data) :
    parseField key (serializeField key value ++ rest) = some (value, rest) := by
  have e1 : serializeField key value ++ rest
      = (key.data ++ (" = \"").data) ++ (value.data ++ ('"' :: '\n' :: rest)) := by
    simp [serializeField, List.append_assoc]
  unfold parseField
  rw [e1, stripPfx_append]
  simp only [takeQuoted_append value.data ('\n' :: rest) h]

theorem parseField_serializeField_nil (key value : String)
    (h : '"' ∉ value.data) :
    parseField key (serializeField key value) = some (value, []) := by
  have := parseField_serializeField key value [] h
  rwa [List.append_nil] at this

theorem parseCredentials_serializeCredentials (c : Credentials)
    (h : validCred c) :
    parseCredentials (serializeCredentials c) = some c := by
  obtain ⟨h1, h2, h3, h4⟩ := h
  have hd : (serializeCredentials c).data
      = serializeField "remote" c.remote ++
        (serializeField "email" c.email ++
          (serializeField "id" c.id ++ serializeField "token" c.token)) := by
    simp [serializeCredentials, List.append_assoc]
  unfold parseCredentials
  rw [hd, parseField_serializeField _ _ _ h1.1]
  simp only [parseField_serializeField _ _ _ h2.1,
    parseField_serializeField _ _ _ h3.1,
    parseField_serializeField_nil _ _ h4.1]

theorem Credentials.load_congr (fs fs' : FileSystem) (p : String)
    (h : fs p = fs' p) : Credentials.load fs p = Credentials.load fs' p := by
  unfold Credentials.load
  rw [h]


/-! Shared helper lemmas about the multi-org selection. -/

theorem get_current_org_token_nil (t : CliAccessTokens)
    (h : t.org_access_tokens = []) :
    t.get_current_org_token = .panicked orgPanicMsg := by
  unfold CliAccessTokens.get_current_org_token
  rw [h]
  rfl

/-! Claim theorems. -/

/-- Claim C1, counterexample: with a helper that succeeds but returns an
empty organization map, and a valid legacy profile on disk (the legacy path
would yield token `t1`), `read_infinyon_token` does not fall back: it
panics instead of returning the legacy token. -/
theorem C1_counterexample :
    read_infinyon_token wEmptyOrgs = .panicked orgPanicMsg ∧
    read_infinyon_token_v3 wEmptyOrgs.fs wEmptyOrgs.home = .ok "t1" ∧
    read_infinyon_token wEmptyOrgs ≠ .ok (.ok "t1") := by
  refine ⟨rfl, by decide, by decide⟩

/-- Claim C1 (amended): `read_infinyon_token` falls back to the legacy
single-profile path exactly when the helper's execution fails; when the
helper succeeds with an empty organization-tokens mapping the call panics
(fails loudly) instead of falling back, so the two failure kinds are not
treated alike. -/
theorem C1_amended_fallback : ∀ (w : World),
    (w.helper = .execError →
      read_infinyon_token w = .ok (read_infinyon_token_v3 w.fs w.home)) ∧
    (∀ (code : Int) (t : CliAccessTokens),
      w.helper = .ranParsed code t → t.org_access_tokens = [] →
      read_infinyon_token w = .panicked orgPanicMsg) := by
  intro w
  constructor
  · intro h
    unfold read_infinyon_token read_access_tokens
    rw [h]
  · intro code t h ht
    unfold read_infinyon_token read_access_tokens
    rw [h]
    simp only [get_current_org_token_nil t ht]

/-- Claim C1 witness: the amended statement at the concrete worlds `wExec`
(helper unavailable, fallback happens) and `wEmptyOrgs` (helper succeeded
with no organizations, panic). -/
theorem C1_amended_fallback_witness :
    read_infinyon_token wExec = .ok (read_infinyon_token_v3 wExec.fs wExec.home) ∧
    read_infinyon_token wEmptyOrgs = .panicked orgPanicMsg :=
  ⟨(C1_amended_fallback wExec).1 rfl,
   (C1_amended_fallback wEmptyOrgs).2 0 catEmpty rfl rfl⟩

/-- Claim C2, counterexample: a helper run with exit status 1 and
unparsable stdout makes `read_access_tokens` panic rather than return the
catchable execution-failure error; and a helper run with exit status 1 but
parsable stdout is treated as success, so a non-zero exit status is not a
failure at all. -/
theorem C2_counterexample :
    read_access_tokens wUnparsable = .panicked serdeUnwrapMsg ∧
    read_access_tokens wUnparsable ≠ .ok (.err (.Read "failed to execute v4")) ∧
    read_access_tokens wNonzeroParsed = .ok (.ok catAB) := by
  refine ⟨rfl, by decide, rfl⟩

/-- Claim C2 (amended): only a process-spawn failure yields the
recoverable `Read "failed to execute v4"` error; when the process runs,
its exit status is ignored: parsable stdout yields success regardless of
exit status, and unparsable stdout aborts with a panic rather than a
catchable failure. -/
theorem C2_amended_exec_error_only : ∀ (w : World),
    (w.helper = .execError →
      read_access_tokens w = .ok (.err (.Read "failed to execute v4"))) ∧
    (∀ code : Int, w.helper = .ranUnparsable code →
      read_access_tokens w = .panicked serdeUnwrapMsg) ∧
    (∀ (code : Int) (t : CliAccessTokens), w.helper = .ranParsed code t →
      read_access_tokens w = .ok (.ok t)) := by
  intro w
  refine ⟨fun h => ?_, fun code h => ?_, fun code t h => ?_⟩ <;>
    (unfold read_access_tokens; rw [h])

/-- Claim C2 witness: the amended statement at the three concrete helper
behaviours. -/
theorem C2_amended_exec_error_only_witness :
    read_access_tokens wExec = .ok (.err (.Read "failed to execute v4")) ∧
    read_access_tokens wUnparsable = .panicked serdeUnwrapMsg ∧
    read_access_tokens wNonzeroParsed = .ok (.ok catAB) :=
  ⟨(C2_amended_exec_error_only wExec).1 rfl,
   (C2_amended_exec_error_only wUnparsable).2.1 1 rfl,
   (C2_amended_exec_error_only wNonzeroParsed).2.2 1 catAB rfl⟩

/-- Claim C3, counterexample: `catAB` and `catBA` are permutations of each
other — the same organization-tokens mapping, presented in two iteration
orders — yet `get_current_org_token` selects `ta` from one and `tb` from
the other, so selection is not deterministic across representations of the
same mapping and is not by canonical key order. -/
theorem C3_counterexample :
    catAB.org_access_tokens.Perm catBA.org_access_tokens ∧
    catAB.get_current_org_token = .ok "ta" ∧
    catBA.get_current_org_token = .ok "tb" ∧
    catAB.get_current_org_token ≠ catBA.get_current_org_token := by
  refine ⟨by decide, rfl, rfl, by decide⟩

/-- Claim C3 (amended): `get_current_org_token` returns the token of the
first entry in the mapping's iteration order — for a Rust `HashMap` an
arbitrary entry, deterministic only in the iteration order itself (hence
for at most one entry), not canonical key order. -/
theorem C3_amended_first_entry : ∀ (c : CliAccessTokens) (k v : String)
    (rest : List (String × String)),
    c.org_access_tokens = (k, v) :: rest →
    c.get_current_org_token = .ok v := by
  intro c k v rest h
  unfold CliAccessTokens.get_current_org_token
  rw [h]
  simp [hashmap_get]

/-- Claim C3 witness: the amended statement at the concrete mapping
`catAB`, whose first entry holds token `ta`. -/
theorem C3_amended_first_entry_witness :
    catAB.org_access_tokens = ("orga", "ta") :: [("orgb", "tb")] ∧
    catAB.get_current_org_token = .ok "ta" :=
  ⟨rfl, C3_amended_first_entry catAB "orga" "ta" [("orgb", "tb")] rfl⟩

/-- Claim C4, counterexample: the pointer file content is joined verbatim,
not trimmed: with pointer content `profA.toml` resolution succeeds, while
with content `profA.toml` followed by a newline (the same filename after
trimming) resolution fails with a `Read` error, because the trailing
newline becomes part of the looked-up path. -/
theorem C4_counterexample :
    Credentials.try_load fsA "base" = .ok credA ∧
    Credentials.try_load fsNl "base" = .err (.Read noCredsMsg) ∧
    fsNl (pathJoin "base" CURRENT_LOGIN_FILE_NAME) = some "profA.toml\n" ∧
    "profA.toml\n" = "profA.toml".push '\n' := by
  refine ⟨by decide, by decide, by decide, by decide⟩

/-- Claim C4 (amended): the Legacy Resolver reads the pointer file content
as raw text and joins it onto the base directory verbatim, without
trimming; surrounding whitespace in the pointer content therefore changes
the resolved record path. -/
theorem C4_amended_no_trim : ∀ (fs : FileSystem) (base name : String),
    fs (pathJoin base CURRENT_LOGIN_FILE_NAME) = some name →
    Credentials.try_load fs base = Credentials.load fs (pathJoin base name) := by
  intro fs base name h
  unfold Credentials.try_load
  rw [h]

/-- Claim C4 witness: the amended statement at the concrete store `fsA`. -/
theorem C4_amended_no_trim_witness :
    fsA (pathJoin "base" CURRENT_LOGIN_FILE_NAME) = some "profA.toml" ∧
    Credentials.try_load fsA "base" = Credentials.load fsA (pathJoin "base" "profA.toml") :=
  ⟨by decide, C4_amended_no_trim fsA "base" "profA.toml" (by decide)⟩

/-- Claim C5: when the helper's organization-tokens mapping is empty,
`get_current_org_token` fails loudly — it panics with the message telling
the user to login or switch organizations — and in particular never
returns a token (so never an empty string) for such input. -/
theorem C5_empty_orgs_fail_loudly : ∀ (c : CliAccessTokens),
    c.org_access_tokens = [] →
    c.get_current_org_token = .panicked orgPanicMsg ∧
    ∀ s : String, c.get_current_org_token ≠ .ok s := by
  intro c h
  have hp := get_current_org_token_nil c h
  exact ⟨hp, fun s hs => by rw [hp] at hs; exact PanicOr.noConfusion hs⟩

/-- Claim C5 witness: the statement at the concrete empty mapping
`catEmpty`. -/
theorem C5_empty_orgs_fail_loudly_witness :
    catEmpty.org_access_tokens = [] ∧
    catEmpty.get_current_org_token = .panicked orgPanicMsg :=
  ⟨rfl, (C5_empty_orgs_fail_loudly catEmpty rfl).1⟩

/-- Claim C6: `Credentials.load` yields the `Read` error exactly when the
file read fails, and `UnableToParseCredentials` exactly when the read
succeeds but the content does not parse; `Credentials.try_load` yields the
`Read` error when the pointer file is absent and otherwise delegates to
`Credentials.load` on the joined path unchanged — so a pointer naming a
nonexistent file yields the `Read` error, never the parse error. -/
theorem C6_error_kinds :
    (∀ (fs : FileSystem) (p : String),
      Credentials.load fs p = .err (.Read noCredsMsg) ↔ fs p = none) ∧
    (∀ (fs : FileSystem) (p : String),
      Credentials.load fs p = .err .UnableToParseCredentials ↔
        ∃ s, fs p = some s ∧ parseCredentials s = none) ∧
    (∀ (fs : FileSystem) (base : String),
      fs (pathJoin base CURRENT_LOGIN_FILE_NAME) = none →
      Credentials.try_load fs base = .err (.Read noCredsMsg)) ∧
    (∀ (fs : FileSystem) (base name : String),
      fs (pathJoin base CURRENT_LOGIN_FILE_NAME) = some name →
      Credentials.try_load fs base = Credentials.load fs (pathJoin base name)) := by
  refine ⟨?_, ?_, ?_, ?_⟩
  · intro fs p
    unfold Credentials.load
    cases hfs : fs p with
    | none => simp
    | some s => cases hp : parseCredentials s <;> simp [hp]
  · intro fs p
    unfold Credentials.load
    cases hfs : fs p with
    | none => simp
    | some s => cases hp : parseCredentials s <;> simp [hp]
  · intro fs base h
    unfold Credentials.try_load
    rw [h]
  · intro fs base name h
    unfold Credentials.try_load
    rw [h]

/-- Claim C6 witness: the statement at concrete stores — a missing file
(`Read`), an unparsable file (`UnableToParseCredentials`), a missing
pointer file (`Read`), and a pointer naming a nonexistent file (`Read`,
not the parse error). -/
theorem C6_error_kinds_witness :
    Credentials.load fsGarbage "missing" = .err (.Read noCredsMsg) ∧
    Credentials.load fsGarbage "bad" = .err .UnableToParseCredentials ∧
    Credentials.try_load fsEmpty "base" = .err (.Read noCredsMsg) ∧
    Credentials.try_load fsDangling "base" = .err (.Read noCredsMsg) := by
  refine ⟨?_, ?_, ?_, ?_⟩
  · exact (C6_error_kinds.1 fsGarbage "missing").mpr (by decide)
  · exact (C6_error_kinds.2.1 fsGarbage "bad").mpr ⟨"garbage", by decide, by decide⟩
  · exact C6_error_kinds.2.2.1 fsEmpty "base" rfl
  · exact (C6_error_kinds.2.2.2 fsDangling "base" "nofile.toml" (by decide)).trans
      ((C6_error_kinds.1 fsDangling (pathJoin "base" "nofile.toml")).mpr (by decide))

/-- Claim C7: with the override variable set to a path holding a valid
credential file, `read_infinyon_token_rem` returns that file's
(token, remote) pair; its result never depends on the external helper
(the Multi-Org Token Source is never consulted); and with the override
set, the result depends only on the file at the override path, so nothing
under the default base directory is read. -/
theorem C7_env_override :
    (∀ (w : World) (p : String) (c : Credentials),
      w.env = some p → Credentials.load w.fs p = .ok c →
      read_infinyon_token_rem w = .ok (c.token, c.remote)) ∧
    (∀ (e : Option String) (fs : FileSystem) (home : String)
      (h1 h2 : HelperOutcome),
      read_infinyon_token_rem ⟨e, fs, home, h1⟩ =
        read_infinyon_token_rem ⟨e, fs, home, h2⟩) ∧
    (∀ (w w' : World) (p : String),
      w.env = some p → w'.env = some p → w.fs p = w'.fs p →
      read_infinyon_token_rem w = read_infinyon_token_rem w') := by
  refine ⟨?_, ?_, ?_⟩
  · intro w p c he hl
    unfold read_infinyon_token_rem
    rw [he]
    simp only [hl]
  · intro e fs home h1 h2
    rfl
  · intro w w' p he he' hf
    unfold read_infinyon_token_rem
    rw [he, he']
    simp only [Credentials.load_congr w.fs w'.fs p hf]

/-- Claim C7 witness: at the concrete world `wEnvBoth` the override
profile's pair (`t2`, `r2`) is returned even though the default base
directory holds the different valid profile `credA`. -/
theorem C7_env_override_witness :
    read_infinyon_token_rem wEnvBoth = .ok ("t2", "r2") ∧
    Credentials.try_load wEnvBoth.fs (default_file_path wEnvBoth.home) = .ok credA := by
  constructor
  · exact C7_env_override.1 wEnvBoth "envprof" credB rfl (by decide)
  · decide

/-- Claim C8: when the external helper cannot be executed,
`read_infinyon_token` falls back to the legacy resolver, and when a valid
legacy profile exists under the default base directory it returns that
profile's token. -/
theorem C8_exec_error_legacy_token : ∀ (w : World) (c : Credentials),
    w.helper = .execError →
    Credentials.try_load w.fs (default_file_path w.home) = .ok c →
    read_infinyon_token w = .ok (.ok c.token) := by
  intro w c hh hc
  unfold read_infinyon_token read_access_tokens
  rw [hh]
  simp only [read_infinyon_token_v3, hc]

/-- Claim C8 witness: at the concrete world `wExec` (helper unavailable,
valid legacy profile `credA` on disk) the legacy token `t1` is
returned. -/
theorem C8_exec_error_legacy_token_witness :
    read_infinyon_token wExec = .ok (.ok "t1") :=
  C8_exec_error_legacy_token wExec credA rfl (by decide)

/-- Claim C9: serializing a valid credential record (fields needing no
TOML escaping) to the credential file format and reading it back through
`Credentials.load` yields the original record field-for-field. -/
theorem C9_roundtrip : ∀ (fs : FileSystem) (p : String) (c : Credentials),
    validCred c → fs p = some (serializeCredentials c) →
    Credentials.load fs p = .ok c := by
  intro fs p c hv hfs
  unfold Credentials.load
  rw [hfs]
  simp only [parseCredentials_serializeCredentials c hv]

/-- Claim C9 witness: the statement at the concrete record `credA` stored
at path `p`. -/
theorem C9_roundtrip_witness :
    validCred credA ∧ Credentials.load fsRT "p" = .ok credA :=
  ⟨by decide, C9_roundtrip fsRT "p" credA (by decide) (by decide)⟩

/-- Claim C10: when the override variable is set but loading the file it
names fails, `read_infinyon_token_rem` returns that error directly, and
any world agreeing on the override path's file yields the same error —
no fallback to the default base directory or legacy resolver occurs. -/
theorem C10_env_error_no_fallback : ∀ (w : World) (p : String)
    (e : InfinyonCredentialError),
    w.env = some p → Credentials.load w.fs p = .err e →
    read_infinyon_token_rem w = .err e ∧
    (∀ w' : World, w'.env = some p → w'.fs p = w.fs p →
      read_infinyon_token_rem w' = .err e) := by
  intro w p e he hl
  have key : ∀ w'' : World, w''.env = some p → w''.fs p = w.fs p →
      read_infinyon_token_rem w'' = .err e := by
    intro w'' he'' hf
    unfold read_infinyon_token_rem
    rw [he'']
    simp only [Credentials.load_congr w''.fs w.fs p hf, hl]
  exact ⟨key w he rfl, key⟩

/-- Claim C10 witness: at the concrete world `wEnvMissing` the override
path is missing, the `Read` error is returned, and the valid legacy
profile under the default base directory is ignored. -/
theorem C10_env_error_no_fallback_witness :
    read_infinyon_token_rem wEnvMissing = .err (.Read noCredsMsg) ∧
    Credentials.try_load wEnvMissing.fs (default_file_path wEnvMissing.home) = .ok credA :=
  ⟨(C10_env_error_no_fallback wEnvMissing "envprof" (.Read noCredsMsg) rfl (by decide)).1,
   by decide⟩

end InfinyonTok
